import Mathlib

/-!
Verification of the cursor-based pagination engine of the `adrf` repository
(`adrf/pagination.py`, class `CursorPagination`), by a shallow embedding of
the pagination pipeline into Lean.

Modelling conventions:

* A cursor token travels as `base64(urlencode(tokens))` where `tokens` is a
  key-value record with optional keys `o`, `r`, `p`.  The base64 and
  url-encoding layers are Python standard-library bijections between the
  key-value record and the wire string (`urlencode` percent-escapes `&`, `=`
  and non-ASCII, `parse_qs` with `keep_blank_values=True` inverts it); they
  are external to the repository, so the embedding works directly on the
  key-value list `List (String × String)` and treats that transport layer as
  the identity.  `parse_qs` returns the first value of each key;
  `List.lookup` models that.
* Database rows reach `_get_position_from_instance` either as objects or as
  dicts; the embedding uses the dict form, `Record := List (String × String)`,
  with field values already string-rendered (the engine only ever compares
  the `str()` rendering of the ordering field, see `_get_position_from_instance`).
* Python exceptions become `Option`/`Except`: `decode_cursor` returns `none`
  where the code raises `NotFound` (invalid cursor), `get_ordering` returns
  `Except` where the code raises `AssertionError` (configuration error).
-/

/-- Decimal digit value of a character, `none` for a non-digit.
Building block of the model of Python's `int()` parsing. -/
def digitVal? (c : Char) : Option Nat :=
  if '0' ≤ c ∧ c ≤ '9' then some (c.toNat - '0'.toNat) else none

/-- Values of a run of decimal digit characters, `none` if any is not a digit. -/
def digitListVal? : List Char → Option (List Nat)
  | [] => some []
  | c :: cs =>
    match digitVal? c, digitListVal? cs with
    | some d, some ds => some (d :: ds)
    | _, _ => none

/-- Value of a non-empty run of decimal digit characters read most significant
first, `none` when empty or containing a non-digit. -/
def digitsVal? (l : List Char) : Option Nat :=
  if l.isEmpty then none
  else (digitListVal? l).map (fun ds => ds.foldl (fun a d => a * 10 + d) 0)

/-- Modelled from the spec: Python's builtin `int(string)` as used by the
token decoder — an optional sign followed by decimal digits, `none` where
Python raises `ValueError`.  (Python additionally strips whitespace and
allows `_` digit separators; no token produced or accepted by the engine's
documented grammar uses those, so the model omits them.) -/
def pyInt? (s : String) : Option Int :=
  if s.data = [] then none
  else if s.data.headD ' ' = '-' then (digitsVal? (s.data.drop 1)).map (fun n => -(n : Int))
  else if s.data.headD ' ' = '+' then (digitsVal? (s.data.drop 1)).map (fun n => (n : Int))
  else (digitsVal? s.data).map (fun n => (n : Int))

/-- Little-endian decimal digits of `n`, with `fuel ≥ n` for structural
termination (so that the definition evaluates inside the kernel). -/
def digitsAux : Nat → Nat → List Nat
  | _, 0 => []
  | 0, _ => []
  | fuel + 1, n + 1 => ((n + 1) % 10) :: digitsAux fuel ((n + 1) / 10)

/-- Modelled from the spec: Python's `str()` of a non-negative integer —
its decimal rendering, most significant digit first. -/
def str_of_nat (n : Nat) : String :=
  if n = 0 then "0" else ⟨((digitsAux n n).map Nat.digitChar).reverse⟩

/-- Modelled from the spec: `rest_framework.pagination._positive_int`, which
this repository imports rather than containing.  Per §4.1/§8 of the spec the
offset cutoff is enforced by rejection ("decode of a token with `o` > cutoff
fails with `InvalidCursor`", "callers must reject"): the string is parsed as
an integer, negatives are rejected, zero is rejected when `strict`, and a
value above a truthy `cutoff` is rejected. -/
def positive_int (s : String) (strict : Bool) (cutoff : Option Nat) : Option Nat :=
  match pyInt? s with
  | none => none
  | some ret =>
    if ret < 0 ∨ (ret = 0 ∧ strict = true) then none
    else
      match cutoff with
      | none => some ret.toNat
      | some c => if c = 0 then some ret.toNat else if c < ret.toNat then none else some ret.toNat

/-- Modelled from the spec: `rest_framework.pagination.Cursor`, the
`(offset, reverse, position)` named tuple this repository imports. -/
structure Cursor where
  offset : Nat
  reverse : Bool
  position : Option String
deriving DecidableEq

/-- `CursorPagination.decode_cursor`, token level (the base64/urlencode
transport is the identity on the key-value list, see the file header):
`o` defaults to `"0"` and passes through `_positive_int` with the offset
cutoff, `r` defaults to `"0"` and is read as `bool(int(r))`, `p` defaults to
absent.  `none` models `raise NotFound(self.invalid_cursor_message)`. -/
def decode_cursor (offset_cutoff : Nat) (tokens : List (String × String)) : Option Cursor :=
  match positive_int ((tokens.lookup "o").getD "0") false (some offset_cutoff) with
  | none => none
  | some offset =>
    match pyInt? ((tokens.lookup "r").getD "0") with
    | none => none
    | some r => some ⟨offset, r != 0, tokens.lookup "p"⟩

/-- `CursorPagination.encode_cursor`, token level: default-valued fields are
omitted (`offset == 0`, `reverse == False`, `position is None`). -/
def encode_cursor (cursor : Cursor) : List (String × String) :=
  (if cursor.offset != 0 then [("o", str_of_nat cursor.offset)] else []) ++
  (if cursor.reverse then [("r", "1")] else []) ++
  (match cursor.position with
   | some p => [("p", p)]
   | none => [])

/-- A database row, in the dict form accepted by
`_get_position_from_instance`: a name-keyed bag of string-rendered field
values (`str(attr)` is applied on every read, so values are strings). -/
def Record := List (String × String)
deriving DecidableEq

/-- Field read, `instance[field_name]` (rows are assumed to carry the
ordering field; a missing key, which raises `KeyError` in Python, reads as
`""` in the model and is never exercised). -/
def getField (r : Record) (f : String) : String :=
  (r.lookup f).getD ""

/-- Python's `string.lstrip('-')`: drop every leading `'-'`. -/
def lstripDash (s : String) : String :=
  ⟨s.data.dropWhile (· = '-')⟩

/-- Python's `string.startswith('-')`: whether the first character is `'-'`. -/
def startsWithDash (s : String) : Bool :=
  match s.data with
  | '-' :: _ => true
  | _ => false

/-- `ordering[0]`, the primary sort key (orderings are non-empty in every
path that reaches a read; the model reads `""` from an empty one). -/
def orderingHead (ordering : List String) : String :=
  ordering.headD ""

/-- `CursorPagination._get_position_from_instance`: the string-rendered value
of the primary ordering field (`ordering[0].lstrip('-')`). -/
def position_from (r : Record) (ordering : List String) : String :=
  getField r (lstripDash (orderingHead ordering))

/-- Modelled from the spec: `rest_framework.pagination._reverse_ordering`,
imported by this repository — "each field's ascending/descending flag
flipped" (§4.3). -/
def reverse_ordering (ordering : List String) : List String :=
  ordering.map (fun f => if startsWithDash f then String.mk (f.data.drop 1) else "-" ++ f)

/-- Lexicographic order on character lists (helper of `strLt`). -/
def charListLt : List Char → List Char → Bool
  | [], [] => false
  | [], _ :: _ => true
  | _ :: _, [] => false
  | a :: as, b :: bs => if a < b then true else if b < a then false else charListLt as bs

/-- Strict order on string-rendered field values: code-point lexicographic,
as Python compares `str` (and as the collation of the `__lt`/`__gt` row
filters is modelled). -/
def strLt (a b : String) : Bool := charListLt a.data b.data

/-- Three-way comparison of string field values (helper of `ordCompare`). -/
def strCompare (a b : String) : Ordering :=
  if strLt a b then .lt else if a = b then .eq else .gt

/-- Comparison of two rows under an ordering tuple: each `'-'`-prefixed field
compares descending, ties fall through to the next field.  Models the sort
key of Django's `queryset.order_by(*ordering)` on string-rendered values. -/
def ordCompare (ordering : List String) (a b : Record) : Ordering :=
  match ordering with
  | [] => .eq
  | f :: rest =>
    let attr := lstripDash f
    let c := strCompare (getField a attr) (getField b attr)
    let c := if startsWithDash f then c.swap else c
    match c with
    | .eq => ordCompare rest a b
    | r => r

/-- Stable insertion of a row into a sorted list (helper of `order_by`). -/
def insertRec (ordering : List String) (x : Record) : List Record → List Record
  | [] => [x]
  | y :: ys =>
    if ordCompare ordering x y = .gt then y :: insertRec ordering x ys else x :: y :: ys

/-- `queryset.order_by(*ordering)`: the rows sorted by the ordering tuple
(modelled as an insertion sort; the database performs the sort in the
source). -/
def order_by (ordering : List String) : List Record → List Record
  | [] => []
  | x :: xs => insertRec ordering x (order_by ordering xs)

/-- Lines 76–88 of `paginate_queryset`: when the cursor carries a position,
restrict the queryset with `{order_attr}__lt` or `{order_attr}__gt` chosen by
`self.cursor.reverse != is_reversed` (cursor reversed XOR primary ordering
field descending). -/
def position_filter (ordering : List String) (cursorReverse : Bool)
    (current_position : Option String) (qs : List Record) : List Record :=
  match current_position with
  | none => qs
  | some p =>
    let order := orderingHead ordering
    let is_reversed := startsWithDash order
    let order_attr := lstripDash order
    if cursorReverse != is_reversed then
      qs.filter (fun r => strLt (getField r order_attr) p)
    else
      qs.filter (fun r => strLt p (getField r order_attr))

/-- The per-request pagination state set up by `paginate_queryset` and
consumed by the link builders: the visible page plus the
`has_next`/`has_previous`/`next_position`/`previous_position` fields, and the
request's decoded cursor, page size and ordering. -/
structure PageState where
  page : List Record
  has_next : Bool
  has_previous : Bool
  next_position : Option String
  previous_position : Option String
  cursor : Option Cursor
  page_size : Nat
  ordering : List String
deriving DecidableEq

/-- Lines 94–123 of `paginate_queryset` (the page planner): cut the page out
of the fetched slice, detect a following position from the extra row, and
assign the four boundary fields, swapped between the forward and reverse
cases.  In the source `next_position`/`previous_position` are only assigned
when the matching flag is true (reading them otherwise would raise
`AttributeError`); the model stores `none` there, which no code path reads. -/
def make_state (ordering : List String) (c? : Option Cursor) (offset : Nat)
    (reverse : Bool) (current_position : Option String) (page_size : Nat)
    (results : List Record) : PageState :=
  let page := results.take page_size
  let has_following : Bool := decide (page.length < results.length)
  let following_position : Option String :=
    if has_following then some (position_from (results.getLastD []) ordering) else none
  if reverse then
    let has_next := current_position.isSome || decide (0 < offset)
    { page := page.reverse
      has_next := has_next
      has_previous := has_following
      next_position := if has_next then current_position else none
      previous_position := if has_following then following_position else none
      cursor := c?
      page_size := page_size
      ordering := ordering }
  else
    let has_previous := current_position.isSome || decide (0 < offset)
    { page := page
      has_next := has_following
      has_previous := has_previous
      next_position := if has_following then following_position else none
      previous_position := if has_previous then current_position else none
      cursor := c?
      page_size := page_size
      ordering := ordering }

/-- The guard `self.page and self.cursor and self.cursor.reverse and
self.cursor.offset != 0` of `get_next_link`, cursor part (a `Cursor` named
tuple is always truthy; `None` is falsy). -/
def cursor_rev_offset : Option Cursor → Bool
  | some c => c.reverse && decide (c.offset ≠ 0)
  | none => false

/-- The guard `self.page and self.cursor and not self.cursor.reverse and
self.cursor.offset != 0` of `get_previous_link`, cursor part. -/
def cursor_fwd_offset : Option Cursor → Bool
  | some c => !c.reverse && decide (c.offset ≠ 0)
  | none => false

/-- `self.cursor.reverse` as read inside the link builders (total model;
the source only reads it with a cursor present). -/
def cursor_reverse (c? : Option Cursor) : Bool :=
  (c?.map Cursor.reverse).getD false

/-- `self.cursor.offset` as read inside the link builders (total model). -/
def cursor_offset (c? : Option Cursor) : Nat :=
  (c?.map Cursor.offset).getD 0

/-- Lines 152–157 of `get_next_link`: the initial comparison value of the
tie-break scan — the position of the page's last item when the page is
non-empty and the cursor is a reversed one with a non-zero offset, and
`self.next_position` otherwise. -/
def next_compare (st : PageState) : Option String :=
  if !st.page.isEmpty && cursor_rev_offset st.cursor then
    some (position_from (st.page.getLastD []) st.ordering)
  else st.next_position

/-- The tie-break loop shared by both link builders (lines 160–174 and
213–227): walk the given row sequence, counting an offset while positions
chain-equal the comparison value, stopping at the first differing position
("a unique marker").  Returns (marker found, offset counter, the loop's
`position` variable at exit — `none` when the loop never ran). -/
def tie_scan (ordering : List String) : List Record → Option String → Nat →
    Bool × Nat × Option String
  | [], _, off => (false, off, none)
  | item :: rest, compare, off =>
    let position := position_from item ordering
    if some position ≠ compare then (true, off, some position)
    else tie_scan ordering rest (some position) (off + 1)

/-- `CursorPagination.get_next_link` (lines 148–199), producing the emitted
`Cursor` (the final `encode_cursor` into a URL is separate): `None` when
there is no next page; otherwise scan the page from its end backward against
`next_compare`, fall into the no-unique-position branch when the scan finds
no marker, and patch the position for an empty page. -/
def get_next_link (st : PageState) : Option Cursor :=
  if !st.has_next then none
  else
    let scanned := tie_scan st.ordering st.page.reverse (next_compare st) 0
    let offPos : Nat × Option String :=
      if !st.page.isEmpty && !scanned.1 then
        if !st.has_previous then (st.page_size, none)
        else if cursor_reverse st.cursor then (0, st.previous_position)
        else (cursor_offset st.cursor + st.page_size, st.previous_position)
      else (scanned.2.1, scanned.2.2)
    let pos := if st.page.isEmpty then st.next_position else offPos.2
    some ⟨offPos.1, false, pos⟩

/-- Lines 205–210 of `get_previous_link`: the initial comparison value of
its tie-break scan — the position of the page's first item when the page is
non-empty and the cursor is a forward one with a non-zero offset, and
`self.previous_position` otherwise. -/
def prev_compare (st : PageState) : Option String :=
  if !st.page.isEmpty && cursor_fwd_offset st.cursor then
    some (position_from (st.page.headD []) st.ordering)
  else st.previous_position

/-- `CursorPagination.get_previous_link` (lines 201–252), the mirror image of
`get_next_link`: scan the page from its start forward, swap which branch
accumulates the offset, and emit a `reverse=True` cursor. -/
def get_previous_link (st : PageState) : Option Cursor :=
  if !st.has_previous then none
  else
    let scanned := tie_scan st.ordering st.page (prev_compare st) 0
    let offPos : Nat × Option String :=
      if !st.page.isEmpty && !scanned.1 then
        if !st.has_next then (st.page_size, none)
        else if cursor_reverse st.cursor then (cursor_offset st.cursor + st.page_size, st.next_position)
        else (0, st.next_position)
      else (scanned.2.1, scanned.2.2)
    let pos := if st.page.isEmpty then st.previous_position else offPos.2
    some ⟨offPos.1, true, pos⟩

/-- The dynamically-typed `ordering` value seen by `get_ordering`: Python's
`None`, a string, or a list/tuple of strings. -/
inductive PyOrdering
  | null
  | str (s : String)
  | seq (l : List String)
deriving DecidableEq

/-- `'__' in chars` for a string: Python's substring test. -/
def hasDunder : List Char → Bool
  | '_' :: '_' :: _ => true
  | _ :: rest => hasDunder rest
  | [] => false

/-- Error outcomes of the engine: `NotFound` for an invalid cursor and
`AssertionError` for a configuration error. -/
inductive PError
  | invalidCursor
  | configError
deriving DecidableEq

/-- `CursorPagination.get_ordering` (lines 254–297).  `vf` is the ordering
returned by the first filter backend that has `get_ordering`, when the view
has one (`none` = no such backend).  With a filter the only assertion is that
its ordering is not `None`; with the default, `None` is rejected and then
`'__' not in ordering` is asserted — Python's `in`, i.e. a substring test
when the default is a string but an element-membership test when it is a
list/tuple.  The result is normalized to a tuple. -/
def get_ordering (vf : Option PyOrdering) (default_ordering : PyOrdering) :
    Except PError (List String) :=
  match vf with
  | some o =>
    match o with
    | .null => .error .configError
    | .str s => .ok [s]
    | .seq l => .ok l
  | none =>
    match default_ordering with
    | .null => .error .configError
    | .str s => if hasDunder s.data then .error .configError else .ok [s]
    | .seq l => if l.contains "__" then .error .configError else .ok l

/-- The configuration surface of `CursorPagination`: class attributes
`page_size` (0 models a falsy/absent setting), `page_size_query_param`
(enabled or not; its name is opaque), `max_page_size`, `offset_cutoff`,
`ordering`. -/
structure Paginator where
  page_size : Nat
  page_size_query_param : Bool
  max_page_size : Option Nat
  offset_cutoff : Nat
  ordering : PyOrdering
deriving DecidableEq

/-- The request surface the engine reads: the cursor query parameter (as its
transported key-value token list, see the file header) and the raw value of
the page-size query parameter. -/
structure Request where
  cursor_param : Option (List (String × String))
  size_param : Option String
deriving DecidableEq

/-- `CursorPagination.get_page_size` (lines 135–146): with the query
parameter enabled and present, parse it strictly positive bounded by
`max_page_size`; any `KeyError`/`ValueError` falls back to the configured
default. -/
def get_page_size (cfg : Paginator) (req : Request) : Nat :=
  if cfg.page_size_query_param then
    match req.size_param with
    | some v =>
      match positive_int v true cfg.max_page_size with
      | some n => n
      | none => cfg.page_size
    | none => cfg.page_size
  else cfg.page_size

/-- `decode_cursor` at the request level: no parameter → no cursor; a
parameter that fails to decode → `NotFound`. -/
def decode_request_cursor (cfg : Paginator) (req : Request) :
    Except PError (Option Cursor) :=
  match req.cursor_param with
  | none => .ok none
  | some tokens =>
    match decode_cursor cfg.offset_cutoff tokens with
    | none => .error .invalidCursor
    | some c => .ok (some c)

/-- `CursorPagination.paginate_queryset` (lines 56–130): resolve the page
size (falsy → pagination disabled, `None` returned before anything else
runs), resolve the ordering, decode the cursor, order the queryset (reversed
field-wise for a reverse cursor), apply the position filter, slice
`[offset : offset + page_size + 1]`, and plan the page. -/
def paginate_queryset (cfg : Paginator) (vf : Option PyOrdering)
    (qs : List Record) (req : Request) : Except PError (Option PageState) :=
  let page_size := get_page_size cfg req
  if page_size = 0 then .ok none
  else
    match get_ordering vf cfg.ordering with
    | .error e => .error e
    | .ok ordering =>
      match decode_request_cursor cfg req with
      | .error e => .error e
      | .ok c? =>
        let offset := match c? with | none => 0 | some c => c.offset
        let reverse := match c? with | none => false | some c => c.reverse
        let current_position := match c? with | none => none | some c => c.position
        let ordered :=
          if reverse then order_by (reverse_ordering ordering) qs
          else order_by ordering qs
        let filtered := position_filter ordering reverse current_position ordered
        let results := (filtered.drop offset).take (page_size + 1)
        .ok (some (make_state ordering c? offset reverse current_position page_size results))

/-- The response of `ListModelMixin.list` (`adrf/mixins.py`), abstracted:
either the paginated envelope (next link, previous link, page) with links as
transported token lists, or the unpaginated collection. -/
inductive ListResp
  | paginated (next : Option (List (String × String)))
      (previous : Option (List (String × String))) (results : List Record)
  | unpaginated (results : List Record)
deriving DecidableEq

/-- `ListModelMixin.list` composed with `get_paginated_response`
(`adrf/mixins.py` lines 42–53, `adrf/pagination.py` lines 348–353): a `None`
page means the unpaginated queryset is returned untouched. -/
def list_response (cfg : Paginator) (vf : Option PyOrdering)
    (qs : List Record) (req : Request) : Except PError ListResp :=
  match paginate_queryset cfg vf qs req with
  | .error e => .error e
  | .ok none => .ok (.unpaginated qs)
  | .ok (some st) =>
    .ok (.paginated ((get_next_link st).map encode_cursor)
      ((get_previous_link st).map encode_cursor) st.page)

/-- C3's sentence, verbatim as a definition, for comparison with the code's
`next_compare`: "the initial comparison value is the position of the page's
last item, except that next_position is used instead when the page is empty
or when the request arrived via a reversed cursor with a non-zero offset." -/
def next_compare_claimed (st : PageState) : Option String :=
  if st.page.isEmpty || cursor_rev_offset st.cursor then st.next_position
  else some (position_from (st.page.getLastD []) st.ordering)

example : decode_cursor 1000 [("o", "1001")] = none := by decide
example : decode_cursor 1000 [("o", "1000")] = some ⟨1000, false, none⟩ := by decide
example : decode_cursor 1000 [("r", "-1")] = some ⟨0, true, none⟩ := by decide
example : decode_cursor 1000 [("r", "2"), ("p", "x")] = some ⟨0, true, some "x"⟩ := by decide
example : decode_cursor 1000 [("r", "x")] = none := by decide
example : decode_cursor 1000 [] = some ⟨0, false, none⟩ := by decide
example : decode_cursor 1000 (encode_cursor ⟨17, true, some "ab"⟩) = some ⟨17, true, some "ab"⟩ := by decide
example : pyInt? "+7" = some 7 := by decide
example : pyInt? "" = none := by decide
example : pyInt? "007" = some 7 := by decide

deriving instance DecidableEq for Except

example :
    paginate_queryset ⟨2, false, none, 1000, .str "created"⟩ none
      [[("created", "1")], [("created", "2")], [("created", "3")]] ⟨none, none⟩ =
    .ok (some ⟨[[("created", "1")], [("created", "2")]], true, false,
      some "3", none, none, 2, ["created"]⟩) := by decide

example :
    (paginate_queryset ⟨2, false, none, 1000, .str "created"⟩ none
      [[("created", "1")], [("created", "2")], [("created", "3")]] ⟨none, none⟩).map
      (fun st? => st?.map get_next_link) = .ok (some (some ⟨0, false, some "2"⟩)) := by decide

example :
    get_ordering none (.str "a__b") = .error .configError := by decide

/-- C1: an incoming token whose `o` value parses to an integer strictly
above the configured (positive) offset cutoff makes the cursor decoder fail
with the invalid-cursor error (`NotFound`); the request is rejected rather
than the offset being silently truncated to the cutoff. -/
theorem claim_C1 (cfg : Paginator) (req : Request)
    (tokens : List (String × String)) (s : String) (n : Int)
    (h1 : req.cursor_param = some tokens)
    (h2 : tokens.lookup "o" = some s)
    (h3 : pyInt? s = some n)
    (h4 : (cfg.offset_cutoff : Int) < n)
    (h5 : 0 < cfg.offset_cutoff) :
    decode_request_cursor cfg req = .error .invalidCursor := by
  have hn : ¬n < 0 := by omega
  have hc0 : ¬(cfg.offset_cutoff = 0) := by omega
  have hlt : cfg.offset_cutoff < n.toNat := by omega
  have hpos : positive_int s false (some cfg.offset_cutoff) = none := by
    simp [positive_int, h3, hn, hc0, hlt]
  have hdec : decode_cursor cfg.offset_cutoff tokens = none := by
    simp [decode_cursor, h2, hpos]
  simp [decode_request_cursor, h1, hdec]

/-- Witness for C1 at the default cutoff 1000 and the token `{o: 1001}`. -/
theorem claim_C1_witness :
    decode_request_cursor ⟨5, false, none, 1000, .str "created"⟩
      ⟨some [("o", "1001")], none⟩ = .error .invalidCursor :=
  claim_C1 ⟨5, false, none, 1000, .str "created"⟩ ⟨some [("o", "1001")], none⟩
    [("o", "1001")] "1001" 1001 rfl (by decide) (by decide) (by decide) (by decide)

/-- C4: with a cursor position present, the rows that survive the position
filter are exactly those of the queryset whose primary-ordering-field value
is strictly below (when the cursor's reverse flag XOR the primary field's
descending flag holds) or strictly above (otherwise) the cursor position. -/
theorem claim_C4 (ordering : List String) (rev : Bool) (p : String)
    (qs : List Record) (r : Record) :
    r ∈ position_filter ordering rev (some p) qs ↔
      r ∈ qs ∧
        (if xor rev (startsWithDash (orderingHead ordering))
         then strLt (getField r (lstripDash (orderingHead ordering))) p = true
         else strLt p (getField r (lstripDash (orderingHead ordering))) = true) := by
  unfold position_filter
  cases rev <;> cases h : startsWithDash (orderingHead ordering) <;>
    simp [h, List.mem_filter]

/-- C5: the planner's flags — forward cursors get `has_next` from the extra
fetched row and `has_previous` from having arrived via a position or a
positive offset; reverse cursors swap the two assignments. -/
theorem claim_C5 (ordering : List String) (c? : Option Cursor) (offset : Nat)
    (reverse : Bool) (cpos : Option String) (psize : Nat) (results : List Record) :
    ((make_state ordering c? offset reverse cpos psize results).has_next = true ↔
      (if reverse = true then cpos.isSome = true ∨ 0 < offset
       else psize < results.length)) ∧
    ((make_state ordering c? offset reverse cpos psize results).has_previous = true ↔
      (if reverse = true then psize < results.length
       else cpos.isSome = true ∨ 0 < offset)) := by
  unfold make_state
  cases reverse <;> simp [List.length_take]

/-- C7 counterexample: a default ordering supplied as a list whose only
field is the relational path `created__at` is accepted by `get_ordering`
(Python's `in` on a list is element membership, not substring), while the
claim requires a `ConfigurationError`. -/
theorem claim_C7_counterexample :
    hasDunder "created__at".data = true ∧
    get_ordering none (.seq ["created__at"]) = .ok ["created__at"] := by decide

/-- C7 amended: `get_ordering` fails exactly when a filter backend supplies
a `None` ordering, or when (with no filter backend) the default ordering is
`None`, is a string containing `__` as a substring, or is a list/tuple
containing the literal element `"__"`.  Relational paths inside a
filter-supplied ordering or inside the elements of a list/tuple default are
not rejected. -/
theorem claim_C7_amended (vf : Option PyOrdering) (d : PyOrdering) :
    get_ordering vf d = .error .configError ↔
      (vf = some .null ∨
        (vf = none ∧ (d = .null ∨
          (∃ s, d = .str s ∧ hasDunder s.data = true) ∨
          (∃ l, d = .seq l ∧ "__" ∈ l)))) := by
  cases vf with
  | some o => cases o <;> simp [get_ordering]
  | none =>
    cases d with
    | null => simp [get_ordering]
    | str s =>
      by_cases h : hasDunder s.data = true <;> simp [get_ordering, h]
    | seq l =>
      by_cases h : "__" ∈ l <;> simp [get_ordering, h]

/-- C8: a page size resolving to zero/absent disables pagination — the
engine returns `None` from `paginate_queryset` without consulting the
ordering, the cursor, or the collection, and the list flow then returns the
unpaginated collection untouched. -/
theorem claim_C8 (cfg : Paginator) (vf : Option PyOrdering)
    (qs : List Record) (req : Request)
    (h : get_page_size cfg req = 0) :
    paginate_queryset cfg vf qs req = .ok none ∧
    list_response cfg vf qs req = .ok (.unpaginated qs) := by
  have h1 : paginate_queryset cfg vf qs req = .ok none := by
    unfold paginate_queryset
    simp [h]
  refine ⟨h1, ?_⟩
  unfold list_response
  rw [h1]

/-- Witness for C8: a paginator configured with page size 0 and a
configuration that would otherwise even fail ordering resolution. -/
theorem claim_C8_witness :
    get_page_size ⟨0, false, none, 1000, .null⟩ ⟨none, none⟩ = 0 ∧
    list_response ⟨0, false, none, 1000, .null⟩ none [[("created", "1")]]
      ⟨none, none⟩ = .ok (.unpaginated [[("created", "1")]]) :=
  ⟨by decide, (claim_C8 ⟨0, false, none, 1000, .null⟩ none [[("created", "1")]]
    ⟨none, none⟩ (by decide)).2⟩

/-- C9: with the client page-size parameter enabled and present but not a
strictly positive integer (non-numeric, zero, or negative), `get_page_size`
silently returns the configured default; the malformed value never raises. -/
theorem claim_C9 (cfg : Paginator) (req : Request) (v : String)
    (h1 : cfg.page_size_query_param = true)
    (h2 : req.size_param = some v)
    (h3 : pyInt? v = none ∨ ∃ z : Int, z ≤ 0 ∧ pyInt? v = some z) :
    get_page_size cfg req = cfg.page_size := by
  have hpos : positive_int v true cfg.max_page_size = none := by
    rcases h3 with h | ⟨z, hz, h⟩
    · simp [positive_int, h]
    · by_cases hz0 : z = 0
      · subst hz0
        simp [positive_int, h]
      · have hlt : z < 0 := lt_of_le_of_ne hz hz0
        simp [positive_int, h, hlt]
  simp [get_page_size, h1, h2, hpos]

/-- Witness for C9: parameter value `"-3"` with default page size 7. -/
theorem claim_C9_witness :
    get_page_size ⟨7, true, none, 1000, .str "created"⟩ ⟨none, some "-3"⟩ = 7 :=
  claim_C9 ⟨7, true, none, 1000, .str "created"⟩ ⟨none, some "-3"⟩ "-3"
    rfl rfl (.inr ⟨-3, by decide, by decide⟩)

/-- C10: the decoder accepts any integer-parseable `r` value and sets
`reverse` to whether it is non-zero (`bool(int(r))`), while a non-integer
`r` makes decoding fail — acceptance is not limited to `0`/`1`. -/
theorem claim_C10 (cutoff : Nat) (tokens : List (String × String))
    (s : String) (off : Nat)
    (h1 : tokens.lookup "r" = some s)
    (h2 : positive_int ((tokens.lookup "o").getD "0") false (some cutoff) = some off) :
    (∀ r : Int, pyInt? s = some r →
      decode_cursor cutoff tokens = some ⟨off, r != 0, tokens.lookup "p"⟩) ∧
    (pyInt? s = none → decode_cursor cutoff tokens = none) := by
  constructor
  · intro r hr
    unfold decode_cursor
    rw [h2, h1]
    simp only [Option.getD_some, hr]
  · intro hr
    unfold decode_cursor
    rw [h2, h1]
    simp only [Option.getD_some, hr]

/-- Witness for C10: the token `{r: "-1"}` decodes to a reversed cursor. -/
theorem claim_C10_witness :
    decode_cursor 1000 [("r", "-1")] = some ⟨0, true, none⟩ :=
  ((claim_C10 1000 [("r", "-1")] "-1" 0 (by decide) (by decide)).1
    (-1) (by decide)).trans (by decide)

/-- C3 counterexample: a non-empty page reached without a reversed/offset
cursor, where the last page item's position (`"a"`) differs from
`next_position` (`"b"`, the position of the look-ahead row).  The code's
initial comparison value (`next_compare`) is `next_position`, while the
claim's description (`next_compare_claimed`) picks the last item's
position — the claim has the default and the exception swapped. -/
theorem claim_C3_counterexample :
    next_compare ⟨[[("created", "a")]], true, false, some "b", none, none, 1,
      ["created"]⟩ = some "b" ∧
    next_compare_claimed ⟨[[("created", "a")]], true, false, some "b", none,
      none, 1, ["created"]⟩ = some "a" := by decide

/-- C3 amended: the initial comparison value of `get_next_link`'s tie-break
scan is `next_position`, except that the position of the page's last item is
used instead when the page is non-empty and the request arrived via a
reversed cursor with a non-zero offset. -/
theorem claim_C3_amended (st : PageState) :
    (∀ c : Cursor, st.cursor = some c → c.reverse = true → c.offset ≠ 0 →
      st.page ≠ [] →
      next_compare st = some (position_from (st.page.getLastD []) st.ordering)) ∧
    (st.page = [] ∨ cursor_rev_offset st.cursor = false →
      next_compare st = st.next_position) := by
  constructor
  · intro c hc hrev hoff hpage
    have h1 : cursor_rev_offset st.cursor = true := by
      simp [cursor_rev_offset, hc, hrev, hoff]
    have h2 : st.page.isEmpty = false := by
      simpa [List.isEmpty_iff] using hpage
    simp [next_compare, h1, h2]
  · rintro (hpage | hco)
    · simp [next_compare, hpage]
    · simp [next_compare, hco]

/-- Witness for the amended C3, reversed-offset-cursor branch: the last page
item's position `"a"` is chosen over `next_position = "b"`. -/
theorem claim_C3_amended_witness :
    next_compare ⟨[[("created", "a")]], true, true, some "b", none,
      some ⟨2, true, some "b"⟩, 1, ["created"]⟩ = some "a" :=
  ((claim_C3_amended ⟨[[("created", "a")]], true, true, some "b", none,
      some ⟨2, true, some "b"⟩, 1, ["created"]⟩).1
    ⟨2, true, some "b"⟩ rfl rfl (by decide) (by decide)).trans (by decide)

/-- C6: when the page is non-empty and the tie-break scan of `get_next_link`
finds no unique marker (every examined position chains equal to the
comparison value): with no previous page the emitted next cursor is
`{offset = page_size, position = absent}`; with a previous page and a
non-reversed cursor it accumulates, `{offset = cursor.offset + page_size,
position = previous_position}`. -/
theorem claim_C6 (st : PageState) (c : Cursor)
    (hn : st.has_next = true) (hpage : st.page ≠ [])
    (hscan : (tie_scan st.ordering st.page.reverse (next_compare st) 0).1 = false) :
    (st.has_previous = false → get_next_link st = some ⟨st.page_size, false, none⟩) ∧
    (st.has_previous = true → st.cursor = some c → c.reverse = false →
      get_next_link st =
        some ⟨c.offset + st.page_size, false, st.previous_position⟩) := by
  have hemp : st.page.isEmpty = false := by
    simpa [List.isEmpty_iff] using hpage
  constructor
  · intro hprev
    simp [get_next_link, hn, hemp, hscan, hprev]
  · intro hprev hc hrev
    simp [get_next_link, hn, hemp, hscan, hprev, cursor_reverse, cursor_offset, hc, hrev]

/-- Witness for C6 on a fully tied two-item page: both branch hypotheses are
discharged on the accumulate branch (previous page exists, forward cursor
with offset 5, page size 2), emitting offset 7 with the previous position. -/
theorem claim_C6_witness :
    get_next_link ⟨[[("created", "a")], [("created", "a")]], true, true,
      some "a", some "a", some ⟨5, false, some "a"⟩, 2, ["created"]⟩ =
      some ⟨7, false, some "a"⟩ :=
  ((claim_C6 ⟨[[("created", "a")], [("created", "a")]], true, true, some "a",
      some "a", some ⟨5, false, some "a"⟩, 2, ["created"]⟩
    ⟨5, false, some "a"⟩ rfl (by decide) (by decide)).2
    rfl rfl rfl).trans (by decide)

theorem digitsAux_lt : ∀ (fuel n : Nat), ∀ d ∈ digitsAux fuel n, d < 10 := by
  intro fuel
  induction fuel with
  | zero => intro n d hd; cases n <;> simp [digitsAux] at hd
  | succ f ih =>
    intro n d hd
    cases n with
    | zero => simp [digitsAux] at hd
    | succ m =>
      simp only [digitsAux, List.mem_cons] at hd
      rcases hd with rfl | hd
      · omega
      · exact ih _ _ hd

theorem digitsAux_ne_nil (fuel n : Nat) (h0 : n ≠ 0) (hf : n ≤ fuel) :
    digitsAux fuel n ≠ [] := by
  cases fuel with
  | zero => omega
  | succ f =>
    cases n with
    | zero => omega
    | succ m => simp [digitsAux]

theorem digitsAux_ofDigits : ∀ (fuel n : Nat), n ≤ fuel →
    Nat.ofDigits 10 (digitsAux fuel n) = n := by
  intro fuel
  induction fuel with
  | zero =>
    intro n h
    have h0 : n = 0 := by omega
    subst h0
    simp [digitsAux, Nat.ofDigits_nil]
  | succ f ih =>
    intro n h
    cases n with
    | zero => simp [digitsAux, Nat.ofDigits_nil]
    | succ m =>
      have hdiv : (m + 1) / 10 ≤ f := by
        have := Nat.div_lt_self (Nat.succ_pos m) (show 1 < 10 by omega)
        omega
      simp only [digitsAux, Nat.ofDigits_cons, ih _ hdiv]
      omega

theorem digitVal_digitChar (d : Nat) (h : d < 10) :
    digitVal? (Nat.digitChar d) = some d := by
  interval_cases d <;> decide

theorem digitChar_not_sign (d : Nat) (h : d < 10) :
    Nat.digitChar d ≠ '-' ∧ Nat.digitChar d ≠ '+' := by
  interval_cases d <;> exact ⟨by decide, by decide⟩

theorem digitListVal_map (ds : List Nat) (h : ∀ d ∈ ds, d < 10) :
    digitListVal? (ds.map Nat.digitChar) = some ds := by
  induction ds with
  | nil => rfl
  | cons d t ih =>
    have hd : d < 10 := h d (by simp)
    have ht : ∀ x ∈ t, x < 10 := fun x hx => h x (by simp [hx])
    simp [digitListVal?, digitVal_digitChar d hd, ih ht]

theorem foldl_digits (l : List Nat) (a : Nat) :
    l.reverse.foldl (fun acc d => acc * 10 + d) a =
      a * 10 ^ l.length + Nat.ofDigits 10 l := by
  induction l generalizing a with
  | nil => simp [Nat.ofDigits_nil]
  | cons d t ih =>
    simp only [List.reverse_cons, List.foldl_append, List.foldl_cons, List.foldl_nil,
      Nat.ofDigits_cons, List.length_cons, ih]
    ring

theorem str_of_nat_data (n : Nat) (h0 : n ≠ 0) :
    (str_of_nat n).data = (digitsAux n n).reverse.map Nat.digitChar := by
  simp only [str_of_nat, if_neg h0]
  exact (List.map_reverse _ _).symm

theorem digitsVal_str_of_nat (n : Nat) :
    digitsVal? (str_of_nat n).data = some n := by
  by_cases h0 : n = 0
  · subst h0; decide
  · have hne : digitsAux n n ≠ [] := digitsAux_ne_nil n n h0 le_rfl
    have hmem : ∀ d ∈ (digitsAux n n).reverse, d < 10 := by
      intro d hd
      exact digitsAux_lt n n d (List.mem_reverse.mp hd)
    rw [str_of_nat_data n h0]
    have hemp : ((digitsAux n n).reverse.map Nat.digitChar).isEmpty = false := by
      simp [List.isEmpty_iff, hne]
    simp only [digitsVal?, hemp, Bool.false_eq_true, if_false,
      digitListVal_map _ hmem, Option.map_some']
    rw [foldl_digits]
    simp [digitsAux_ofDigits n n le_rfl]

theorem pyInt_str_of_nat (n : Nat) :
    pyInt? (str_of_nat n) = some (n : Int) := by
  by_cases h0 : n = 0
  · subst h0; decide
  · have hne : digitsAux n n ≠ [] := digitsAux_ne_nil n n h0 le_rfl
    have hlne : (str_of_nat n).data ≠ [] := by
      rw [str_of_nat_data n h0]
      simp [hne]
    have hhead : ∃ d, d < 10 ∧ (str_of_nat n).data.headD ' ' = Nat.digitChar d := by
      rcases hl : (str_of_nat n).data with _ | ⟨c, cs⟩
      · exact absurd hl hlne
      · have hc : c ∈ (str_of_nat n).data := by rw [hl]; simp
        rw [str_of_nat_data n h0] at hc
        rcases List.mem_map.mp hc with ⟨d, hd, hdc⟩
        exact ⟨d, digitsAux_lt n n d (List.mem_reverse.mp hd), by simp [hdc.symm]⟩
    rcases hhead with ⟨d, hd10, hdc⟩
    have hsign := digitChar_not_sign d hd10
    unfold pyInt?
    rw [if_neg hlne, hdc, if_neg hsign.1, if_neg hsign.2]
    rw [digitsVal_str_of_nat n]
    rfl

/-- C2 counterexample: the cursor `{offset = 1001, reverse = false,
position = absent}` — producible by the engine, e.g. by the offset
accumulation `offset = cursor.offset + page_size` of `get_next_link` —
does not round-trip through `encode`/`decode` at the default cutoff 1000,
because the decoder refuses offsets above the cutoff. -/
theorem claim_C2_counterexample :
    decode_cursor 1000 (encode_cursor ⟨1001, false, none⟩) ≠
      some ⟨1001, false, none⟩ := by decide

/-- C2 amended: `decode (encode c) = c` holds for every cursor whose offset
is at most the configured cutoff (1000, the default); cursors the engine
emits with a larger accumulated offset are not recovered. -/
theorem claim_C2_theorem (c : Cursor) (h : c.offset ≤ 1000) :
    decode_cursor 1000 (encode_cursor c) = some c := by
  obtain ⟨off, rev, pos⟩ := c
  simp only [Cursor.mk.injEq] at h ⊢
  have ho : (encode_cursor ⟨off, rev, pos⟩).lookup "o" =
      if off = 0 then none else some (str_of_nat off) := by
    by_cases h0 : off = 0 <;> cases rev <;> cases pos <;>
      simp [encode_cursor, List.lookup, h0]
  have hr : (encode_cursor ⟨off, rev, pos⟩).lookup "r" =
      if rev then some "1" else none := by
    by_cases h0 : off = 0 <;> cases rev <;> cases pos <;>
      simp [encode_cursor, List.lookup, h0]
  have hp : (encode_cursor ⟨off, rev, pos⟩).lookup "p" = pos := by
    by_cases h0 : off = 0 <;> cases rev <;> cases pos <;>
      simp [encode_cursor, List.lookup, h0]
  have hpos : positive_int (str_of_nat off) false (some 1000) = some off := by
    have hr0 : ¬((off : Int) < 0) := by omega
    have hnlt : ¬(1000 < (off : Int).toNat) := by omega
    simp [positive_int, pyInt_str_of_nat, hr0, hnlt]
    omega
  have hpos0 : positive_int "0" false (some 1000) = some 0 := by decide
  have hrev1 : pyInt? "1" = some 1 := by decide
  have hrev0 : pyInt? "0" = some 0 := by decide
  by_cases h0 : off = 0
  · subst h0
    cases rev <;>
      simp [decode_cursor, ho, hr, hp, hpos0, hrev0, hrev1]
  · cases rev <;>
      simp [decode_cursor, ho, hr, hp, h0, hpos, hrev0, hrev1]

/-- Witness for the amended C2 at the cursor `{offset 3, reverse, position
"x"}`. -/
theorem claim_C2_theorem_witness :
    3 ≤ 1000 ∧
    decode_cursor 1000 (encode_cursor ⟨3, true, some "x"⟩) =
      some ⟨3, true, some "x"⟩ :=
  ⟨by decide, claim_C2_theorem ⟨3, true, some "x"⟩ (by decide)⟩
